import Mathlib

set_option maxRecDepth 100000

/-!
Shallow embedding of the Knowledge Matching & Response Composition Engine
of `frontend/src/pages/AskPage.jsx` (function `generateAIResponse` together
with its static data `knowledgeBase` and `extendedTopics`), and proofs of the
specification claims about it.

Strings are modelled by Lean `String`; the JavaScript number literals used as
confidences (0.95, 0.7, …) are modelled by the rationals they denote; the two
`Math.random()` draws that can influence the returned value (the fallback
suggestion pick) are passed in explicitly; the `setTimeout` thinking delay has
no influence on the returned value and is not modelled.
-/

/-- A primary knowledge-base entry: `answer`/`confidence`/`topic` as in the
object literals of `knowledgeBase`. -/
structure KBEntry where
  answer : String
  confidence : Rat
  topic : String
deriving DecidableEq

/-- An extended (secondary) entry: `text`/`conf`/`top` as in the object
literals of `extendedTopics`. -/
structure ExtEntry where
  text : String
  conf : Rat
  top : String
deriving DecidableEq

/-- The mutable locals `response` / `confidence` / `topic` of
`generateAIResponse`, threaded through the stages of the pipeline. -/
structure RState where
  response : Option String
  confidence : Rat
  topic : String
deriving DecidableEq

/-- The value the promise resolves with:
`{ answer: response, confidence, topic, isLocal: true }`. -/
structure ComposedResponse where
  answer : String
  confidence : Rat
  topic : String
  isLocal : Bool
deriving DecidableEq

/-- A conversation-history message as the caller builds it
(`{ type: m.type, content: m.content }`). -/
structure ConversationMessage where
  type : String
  content : String
deriving DecidableEq

/-- `b` occurs in `a` as a contiguous run: `b` is a prefix of some suffix. -/
def infixOfList (b : List Char) : List Char → Bool
  | [] => b.isEmpty
  | c :: cs => b.isPrefixOf (c :: cs) || infixOfList b cs

/-- JavaScript `a.includes(b)`: `b` occurs in `a` as a contiguous substring. -/
def jsIncludes (a b : String) : Bool :=
  infixOfList b.data a.data

/-- JavaScript `s.split(sep)` for a single-character separator: splits at every
occurrence of `sep`, keeping empty pieces, and never returns an empty list. -/
def splitChar (sep : Char) : List Char → List (List Char)
  | [] => [[]]
  | c :: cs =>
    if c = sep then [] :: splitChar sep cs
    else
      match splitChar sep cs with
      | [] => [[c]]
      | w :: ws => (c :: w) :: ws

/-- The words of a phrase key, as in `key.split(' ')`. -/
def wordsOf (key : String) : List String :=
  (splitChar ' ' key.data).map List.asString

/-- Drop the maximal leading run of whitespace characters. -/
def skipWs : List Char → List Char
  | [] => []
  | c :: cs => if c.isWhitespace then skipWs cs else c :: cs

/-- JavaScript `s.trim()`: whitespace removed from both ends. -/
def trimChars (l : List Char) : List Char :=
  (skipWs ((skipWs l).reverse)).reverse

/-- JavaScript `query.toLowerCase().trim()`, producing the `lowerQuery` local
(the queries at issue are ASCII, where `Char.toLower` agrees with
`toLowerCase`). -/
def normalizeQuery (q : String) : String :=
  (trimChars (q.data.map Char.toLower)).asString

/-- A regex word character (`\w`): ASCII letter, digit or underscore. -/
def isWordChar (c : Char) : Bool :=
  c.isAlpha || c.isDigit || c = '_'

/-- Does a word boundary (`\b`) sit between a just-matched word character and
the remaining input? True at end of input or before a non-word character. -/
def boundaryAfter : List Char → Bool
  | [] => true
  | c :: _ => !(isWordChar c)

/-- Matches the literal token `t` at the start of `s`, followed by a word
boundary (the shape `t\b` anchored at the current position). -/
def tokenAtStart (t : String) (s : List Char) : Bool :=
  t.data.isPrefixOf s && boundaryAfter (s.drop t.data.length)

/-- Match the literals `ws` in order, starting at the head of `s`, with `\s*`
between consecutive literals (the shape `w1\s*w2\s*…\s*wn` at this position). -/
def seqMatch : List String → List Char → Bool
  | [], _ => true
  | [w], s => w.data.isPrefixOf s
  | w :: rest, s => w.data.isPrefixOf s && seqMatch rest (skipWs (s.drop w.data.length))

/-- Unanchored search for `seqMatch ws` at every position of `s`. -/
def seqMatchAnywhere (ws : List String) : List Char → Bool
  | [] => seqMatch ws []
  | c :: rest => seqMatch ws (c :: rest) || seqMatchAnywhere ws rest

/-- The greeting regex
`/^(hi|hello|hey|good\s*(morning|afternoon|evening)|howdy|sup)\b/` as a
boolean test: some alternative matches at the start of the string, followed by
a word boundary. -/
def greetingTest (s : String) : Bool :=
  (["hi", "hello", "hey", "howdy", "sup"].any fun t => tokenAtStart t s.data) ||
  ("good".data.isPrefixOf s.data &&
    (["morning", "afternoon", "evening"].any fun t =>
      tokenAtStart t (skipWs (s.data.drop 4))))

/-- The thanks regex `/thank|thanks|thx|appreciate/` as a boolean test: one of
the literal alternatives occurs somewhere in the string. -/
def thanksTest (s : String) : Bool :=
  jsIncludes s "thank" || jsIncludes s "thanks" || jsIncludes s "thx" ||
    jsIncludes s "appreciate"

/-- The identity regex
`/who\s*(are|r)\s*you|what\s*(are|r)\s*you|your\s*name|about\s*you/` as a
boolean test; the `(are|r)` group is expanded into two alternatives (sound
because no position can start both `are` and `r`). -/
def identityTest (s : String) : Bool :=
  [["who", "are", "you"], ["who", "r", "you"],
   ["what", "are", "you"], ["what", "r", "you"],
   ["your", "name"], ["about", "you"]].any fun p => seqMatchAnywhere p s.data

/-- Knowledge-base entry keyed by "binary search tree" in the source table. -/
def bstEntry : KBEntry :=
  { answer := "A **Binary Search Tree (BST)** is a hierarchical data structure where each node has at most two children, with a special ordering property:\n\n**Key Properties:**\n• Left subtree contains nodes with keys **less than** the parent\n• Right subtree contains nodes with keys **greater than** the parent\n• Both subtrees are also BSTs (recursive property)\n\n**Time Complexities:**\n• Search: O(log n) average, O(n) worst case\n• Insert: O(log n) average, O(n) worst case\n• Delete: O(log n) average, O(n) worst case\n\n**Example Structure:**\n```\n       8\n      / \\\n     3   10\n    / \\    \\\n   1   6    14\n```\n\n**Common Operations:**\n• **Inorder traversal** gives sorted sequence\n• **Search** - compare with root, go left if smaller, right if larger\n• **Insert** - find correct position maintaining BST property",
    confidence := (95 : Rat) / 100,
    topic := "Data Structures" }

/-- Knowledge-base entry keyed by "quick sort" in the source table. -/
def quickSortEntry : KBEntry :=
  { answer := "**Quick Sort** is a highly efficient, divide-and-conquer sorting algorithm invented by Tony Hoare.\n\n**How it works:**\n1. **Choose a pivot** element from the array\n2. **Partition**: Rearrange elements so smaller ones are left of pivot, larger ones are right\n3. **Recursively** apply to left and right subarrays\n\n**Time Complexity:**\n• Best/Average: **O(n log n)**\n• Worst case: **O(n²)** (when array is already sorted with bad pivot choice)\n\n**Space Complexity:** O(log n) for the recursive call stack\n\n**Code Example (Pseudocode):**\n```\nfunction quickSort(arr, low, high):\n    if low < high:\n        pivotIndex = partition(arr, low, high)\n        quickSort(arr, low, pivotIndex - 1)\n        quickSort(arr, pivotIndex + 1, high)\n```\n\n**Why it's popular:**\n• Very fast in practice\n• In-place sorting (low memory usage)\n• Cache-friendly",
    confidence := (94 : Rat) / 100,
    topic := "Algorithms" }

/-- Knowledge-base entry keyed by "merge sort" in the source table. -/
def mergeSortEntry : KBEntry :=
  { answer := "**Merge Sort** is a stable, divide-and-conquer sorting algorithm with guaranteed O(n log n) performance.\n\n**Algorithm Steps:**\n1. **Divide** the array into two halves\n2. **Recursively** sort each half\n3. **Merge** the sorted halves back together\n\n**Time Complexity:** Always **O(n log n)** - consistent performance!\n\n**Space Complexity:** O(n) - requires additional memory\n\n**Key Advantages:**\n• Guaranteed O(n log n) even in worst case\n• Stable sort (preserves relative order of equal elements)\n• Great for linked lists and external sorting\n\n**Merge Process:**\n```\n[3,7,2,5] → Split → [3,7] and [2,5]\n[3,7] → Split → [3] and [7] → Merge → [3,7]\n[2,5] → Split → [2] and [5] → Merge → [2,5]\n[3,7] + [2,5] → Merge → [2,3,5,7]\n```",
    confidence := (93 : Rat) / 100,
    topic := "Algorithms" }

/-- Knowledge-base entry keyed by "linked list" in the source table. -/
def linkedListEntry : KBEntry :=
  { answer := "A **Linked List** is a linear data structure where elements are stored in nodes, with each node pointing to the next.\n\n**Types:**\n• **Singly Linked List** - nodes point only forward\n• **Doubly Linked List** - nodes point forward and backward\n• **Circular Linked List** - last node points to first\n\n**Structure:**\n```\n[Data|Next] → [Data|Next] → [Data|Next] → NULL\n   Head                          Tail\n```\n\n**Time Complexities:**\n• Access: O(n)\n• Search: O(n)\n• Insert at head: **O(1)**\n• Insert at tail: O(n) or O(1) with tail pointer\n• Delete: O(n)\n\n**Advantages over Arrays:**\n• Dynamic size - grows/shrinks easily\n• Efficient insertion/deletion at known positions\n• No memory waste from pre-allocation\n\n**Disadvantages:**\n• No random access (must traverse)\n• Extra memory for pointers",
    confidence := (92 : Rat) / 100,
    topic := "Data Structures" }

/-- Knowledge-base entry keyed by "hash table" in the source table. -/
def hashTableEntry : KBEntry :=
  { answer := "A **Hash Table** (or Hash Map) is a data structure that maps keys to values using a hash function for ultra-fast lookups.\n\n**How it works:**\n1. **Hash Function** converts key → index\n2. Store value at that index\n3. Handle collisions when different keys hash to same index\n\n**Time Complexity (Average):**\n• Insert: **O(1)**\n• Search: **O(1)**\n• Delete: **O(1)**\n\n**Collision Resolution Strategies:**\n• **Chaining** - Each bucket holds a linked list\n• **Open Addressing** - Find next empty slot (linear/quadratic probing)\n\n**Load Factor = n/m** (items/buckets)\n• Keep below 0.7 for good performance\n• Rehash when too full\n\n**Real-world uses:**\n• Database indexing\n• Caching\n• Symbol tables in compilers\n• JavaScript objects, Python dicts",
    confidence := (94 : Rat) / 100,
    topic := "Data Structures" }

/-- Knowledge-base entry keyed by "stack" in the source table. -/
def stackEntry : KBEntry :=
  { answer := "A **Stack** is a linear data structure following the **LIFO** principle (Last In, First Out).\n\n**Think of it like:** A stack of plates - you can only add/remove from the top!\n\n**Core Operations:**\n• **push(x)** - Add element to top | O(1)\n• **pop()** - Remove top element | O(1)\n• **peek()/top()** - View top element | O(1)\n• **isEmpty()** - Check if empty | O(1)\n\n**Implementation:**\n```\nStack: [1, 2, 3, 4] ← TOP\npush(5): [1, 2, 3, 4, 5]\npop(): returns 5, stack becomes [1, 2, 3, 4]\n```\n\n**Real-world Applications:**\n• Function call management (call stack)\n• Undo/Redo operations\n• Expression evaluation\n• Backtracking algorithms\n• Browser history (back button)",
    confidence := (95 : Rat) / 100,
    topic := "Data Structures" }

/-- Knowledge-base entry keyed by "queue" in the source table. -/
def queueEntry : KBEntry :=
  { answer := "A **Queue** is a linear data structure following the **FIFO** principle (First In, First Out).\n\n**Think of it like:** A line at a store - first person in line gets served first!\n\n**Core Operations:**\n• **enqueue(x)** - Add element to rear | O(1)\n• **dequeue()** - Remove front element | O(1)\n• **front()** - View front element | O(1)\n• **isEmpty()** - Check if empty | O(1)\n\n**Types of Queues:**\n• **Simple Queue** - Basic FIFO\n• **Circular Queue** - Efficient use of space\n• **Priority Queue** - Elements have priority levels\n• **Deque** - Double-ended queue\n\n**Applications:**\n• Process scheduling (OS)\n• Print job management\n• Breadth-First Search (BFS)\n• Request handling in web servers\n• Message queues in distributed systems",
    confidence := (94 : Rat) / 100,
    topic := "Data Structures" }

/-- Knowledge-base entry keyed by "graph" in the source table. -/
def graphEntry : KBEntry :=
  { answer := "A **Graph** is a non-linear data structure consisting of **vertices (nodes)** and **edges (connections)**.\n\n**Types:**\n• **Directed** (edges have direction) vs **Undirected**\n• **Weighted** (edges have values) vs **Unweighted**\n• **Cyclic** vs **Acyclic**\n\n**Representations:**\n1. **Adjacency Matrix** - 2D array\n   - Space: O(V²)\n   - Edge lookup: O(1)\n\n2. **Adjacency List** - Array of lists\n   - Space: O(V + E)\n   - Better for sparse graphs\n\n**Common Algorithms:**\n• **BFS** - Level-by-level traversal\n• **DFS** - Deep exploration first\n• **Dijkstra's** - Shortest path\n• **Kruskal's/Prim's** - Minimum spanning tree\n\n**Real-world Examples:**\n• Social networks (friends as edges)\n• Maps (cities as nodes, roads as edges)\n• Web pages (hyperlinks)",
    confidence := (93 : Rat) / 100,
    topic := "Data Structures" }

/-- Knowledge-base entry keyed by "heap" in the source table. -/
def heapEntry : KBEntry :=
  { answer := "A **Heap** is a specialized tree-based data structure that satisfies the **heap property**.\n\n**Types:**\n• **Max Heap** - Parent ≥ Children (root is maximum)\n• **Min Heap** - Parent ≤ Children (root is minimum)\n\n**Properties:**\n• Complete binary tree\n• Efficiently implemented as an array\n• Height: O(log n)\n\n**Operations:**\n• **Insert:** O(log n) - Add and bubble up\n• **Extract Max/Min:** O(log n) - Remove root, heapify\n• **Peek:** O(1) - View root\n• **Build Heap:** O(n) - From unsorted array\n\n**Array Representation:**\n```\nFor node at index i:\n• Left child: 2i + 1\n• Right child: 2i + 2\n• Parent: (i-1) / 2\n```\n\n**Applications:**\n• Priority Queues\n• Heap Sort\n• Dijkstra's Algorithm\n• Scheduling algorithms",
    confidence := (92 : Rat) / 100,
    topic := "Data Structures" }

/-- Knowledge-base entry keyed by "first law of thermodynamics" in the source table. -/
def firstLawEntry : KBEntry :=
  { answer := "The **First Law of Thermodynamics** is the law of **energy conservation** applied to thermodynamic systems.\n\n**Statement:**\n*\"Energy cannot be created or destroyed, only transformed from one form to another.\"*\n\n**Mathematical Form:**\n**ΔU = Q - W**\n\nWhere:\n• **ΔU** = Change in internal energy\n• **Q** = Heat added to system (+) or removed (-)\n• **W** = Work done BY the system\n\n**Key Concepts:**\n• Internal energy is a **state function** (path-independent)\n• Heat and work are **path functions** (depend on process)\n• Energy is always conserved in isolated systems\n\n**Examples:**\n• Heating water (Q → ΔU)\n• Car engine (fuel's chemical energy → mechanical work)\n• Refrigerator (work input → heat transfer)\n\n**Sign Conventions:**\n• Q > 0: Heat INTO system\n• W > 0: Work done BY system",
    confidence := (95 : Rat) / 100,
    topic := "Thermodynamics" }

/-- Knowledge-base entry keyed by "second law of thermodynamics" in the source table. -/
def secondLawEntry : KBEntry :=
  { answer := "The **Second Law of Thermodynamics** governs the **direction of natural processes** and introduces **entropy**.\n\n**Key Statements:**\n\n1. **Clausius Statement:**\n*\"Heat cannot spontaneously flow from cold to hot.\"*\n\n2. **Kelvin-Planck Statement:**\n*\"No heat engine can be 100% efficient.\"*\n\n3. **Entropy Statement:**\n*\"The total entropy of an isolated system always increases.\"*\n\n**Mathematical Form:**\n**ΔS ≥ Q/T**\n\n**Entropy (S):**\n• Measure of disorder/randomness\n• Always increases in spontaneous processes\n• Universe's entropy is constantly increasing\n\n**Implications:**\n• Perfect efficiency is impossible\n• Time has a direction (entropy arrow)\n• Heat engines have maximum theoretical efficiency:\n  **η = 1 - T_cold/T_hot** (Carnot efficiency)",
    confidence := (94 : Rat) / 100,
    topic := "Thermodynamics" }

/-- Knowledge-base entry keyed by "carnot cycle" in the source table. -/
def carnotEntry : KBEntry :=
  { answer := "The **Carnot Cycle** is a theoretical thermodynamic cycle that represents the most efficient heat engine possible.\n\n**Four Reversible Processes:**\n1. **Isothermal Expansion** (A→B): Gas absorbs heat Q_H at T_H\n2. **Adiabatic Expansion** (B→C): Gas expands without heat exchange\n3. **Isothermal Compression** (C→D): Gas releases heat Q_C at T_C\n4. **Adiabatic Compression** (D→A): Gas returns to initial state\n\n**Carnot Efficiency:**\n**η = 1 - T_C/T_H = (T_H - T_C)/T_H**\n\nWhere T is in Kelvin!\n\n**Key Points:**\n• No real engine can exceed Carnot efficiency\n• Efficiency depends ONLY on temperatures\n• Higher T_H or lower T_C → Better efficiency\n• 100% efficiency only if T_C = 0K (impossible)\n\n**Example:**\nSteam engine with T_H = 500K, T_C = 300K:\nη = 1 - 300/500 = 40% maximum efficiency",
    confidence := (93 : Rat) / 100,
    topic := "Thermodynamics" }

/-- Knowledge-base entry keyed by "entropy" in the source table. -/
def entropyEntry : KBEntry :=
  { answer := "**Entropy (S)** is a fundamental thermodynamic property measuring the **disorder or randomness** of a system.\n\n**Mathematical Definition:**\n**dS = δQ_rev / T**\n\nFor reversible processes: ΔS = ∫(dQ/T)\n\n**Key Properties:**\n• State function (path-independent)\n• SI Unit: J/K (Joules per Kelvin)\n• Always increases in isolated systems\n\n**Boltzmann's Statistical View:**\n**S = k_B × ln(Ω)**\nWhere Ω = number of microstates\n\n**Examples of Entropy Increase:**\n• Ice melting (ordered solid → disordered liquid)\n• Gas expanding into vacuum\n• Mixing of two gases\n• Heat flowing from hot to cold\n\n**Important Equations:**\n• Ideal gas: ΔS = nC_v ln(T₂/T₁) + nR ln(V₂/V₁)\n• Phase change: ΔS = Q/T = mL/T",
    confidence := (92 : Rat) / 100,
    topic := "Thermodynamics" }

/-- Knowledge-base entry keyed by "fourier transform" in the source table. -/
def fourierEntry : KBEntry :=
  { answer := "The **Fourier Transform** converts a signal from **time domain to frequency domain**, revealing its frequency components.\n\n**Mathematical Definition:**\n**X(f) = ∫ x(t) × e^(-j2πft) dt**\n\n**Key Concepts:**\n• Any signal can be represented as sum of sinusoids\n• Transform shows amplitude & phase at each frequency\n• Inverse FT converts back to time domain\n\n**Types:**\n• **Continuous FT (CFT)** - For continuous signals\n• **Discrete FT (DFT)** - For sampled signals\n• **Fast FT (FFT)** - Efficient DFT algorithm, O(n log n)\n\n**Properties:**\n• Linearity: F\x7bax + by\x7d = aF\x7bx\x7d + bF\x7by\x7d\n• Time shift → Phase shift in frequency\n• Convolution in time → Multiplication in frequency\n\n**Applications:**\n• Audio/Image compression (MP3, JPEG)\n• Signal filtering\n• Spectrum analysis\n• Communication systems",
    confidence := (94 : Rat) / 100,
    topic := "Signal Processing" }

/-- Knowledge-base entry keyed by "nyquist theorem" in the source table. -/
def nyquistEntry : KBEntry :=
  { answer := "The **Nyquist-Shannon Sampling Theorem** defines the minimum sampling rate needed to accurately capture a signal.\n\n**Statement:**\n*\"To perfectly reconstruct a signal, sample at **at least twice** the highest frequency component.\"*\n\n**Mathematical Form:**\n**f_s ≥ 2 × f_max**\n\nWhere:\n• **f_s** = Sampling frequency\n• **f_max** = Highest frequency in signal (bandwidth)\n• **f_s/2** = Nyquist frequency\n\n**Aliasing:**\nIf sampling is too slow (f_s < 2×f_max):\n• High frequencies appear as false low frequencies\n• Information is lost and cannot be recovered\n• Sounds distorted in audio; patterns in images (Moiré)\n\n**Practical Example:**\nAudio CD: f_max = 20 kHz (human hearing limit)\nf_s = 44.1 kHz > 2 × 20 kHz ✓\n\n**Anti-aliasing:**\n• Use low-pass filter before sampling\n• Remove frequencies above f_s/2",
    confidence := (93 : Rat) / 100,
    topic := "Signal Processing" }

/-- Knowledge-base entry keyed by "convolution" in the source table. -/
def convolutionEntry : KBEntry :=
  { answer := "**Convolution** is a mathematical operation that combines two signals to produce a third, showing how one signal modifies the other.\n\n**Continuous Definition:**\n**(f * g)(t) = ∫ f(τ) × g(t - τ) dτ**\n\n**Discrete Definition:**\n**(f * g)[n] = Σ f[k] × g[n - k]**\n\n**Steps to Compute:**\n1. Flip one signal (reverse it)\n2. Slide it across the other\n3. At each position, multiply and sum\n\n**Key Properties:**\n• Commutative: f * g = g * f\n• Associative: (f * g) * h = f * (g * h)\n• Distributive: f * (g + h) = f*g + f*h\n\n**In Frequency Domain:**\nConvolution in time = Multiplication in frequency\n**F\x7bf * g\x7d = F\x7bf\x7d × F\x7bg\x7d**\n\n**Applications:**\n• Image blurring/sharpening\n• Audio effects (reverb, echo)\n• System response analysis\n• Neural networks (CNNs)",
    confidence := (92 : Rat) / 100,
    topic := "Signal Processing" }

/-- Knowledge-base entry keyed by "recursion" in the source table. -/
def recursionEntry : KBEntry :=
  { answer := "**Recursion** is a programming technique where a function calls itself to solve smaller instances of the same problem.\n\n**Key Components:**\n1. **Base Case** - Condition to stop recursion\n2. **Recursive Case** - Function calls itself with simpler input\n\n**Example - Factorial:**\n```javascript\nfunction factorial(n) \x7b\n    if (n <= 1) return 1;        // Base case\n    return n * factorial(n - 1); // Recursive case\n\x7d\n// factorial(5) = 5 × 4 × 3 × 2 × 1 = 120\n```\n\n**How it works (Call Stack):**\n```\nfactorial(4)\n  → 4 × factorial(3)\n    → 3 × factorial(2)\n      → 2 × factorial(1)\n        → returns 1\n      → returns 2\n    → returns 6\n  → returns 24\n```\n\n**Common Applications:**\n• Tree/Graph traversal\n• Divide and conquer algorithms\n• Mathematical sequences (Fibonacci)\n• Backtracking problems",
    confidence := (95 : Rat) / 100,
    topic := "Programming" }

/-- Knowledge-base entry keyed by "big o notation" in the source table. -/
def bigOEntry : KBEntry :=
  { answer := "**Big O Notation** describes the **upper bound** of an algorithm's time or space complexity as input grows.\n\n**Common Complexities (Best to Worst):**\n\n| Notation | Name | Example |\n|----------|------|---------|\n| O(1) | Constant | Array access |\n| O(log n) | Logarithmic | Binary search |\n| O(n) | Linear | Simple loop |\n| O(n log n) | Linearithmic | Merge sort |\n| O(n²) | Quadratic | Nested loops |\n| O(2ⁿ) | Exponential | Recursive Fibonacci |\n| O(n!) | Factorial | Permutations |\n\n**Rules:**\n• Drop constants: O(2n) → O(n)\n• Drop lower terms: O(n² + n) → O(n²)\n• Consider worst case\n\n**Analysis Tips:**\n• Single loop over n items → O(n)\n• Nested loops → O(n²)\n• Halving each step → O(log n)\n• Recursive with branching → Often exponential",
    confidence := (94 : Rat) / 100,
    topic := "Algorithms" }

/-- Knowledge-base entry keyed by "dynamic programming" in the source table. -/
def dpEntry : KBEntry :=
  { answer := "**Dynamic Programming (DP)** is an optimization technique that solves complex problems by breaking them into overlapping subproblems.\n\n**Key Principles:**\n1. **Optimal Substructure** - Optimal solution contains optimal solutions to subproblems\n2. **Overlapping Subproblems** - Same subproblems are solved multiple times\n\n**Approaches:**\n• **Top-Down (Memoization)** - Recursive with caching\n• **Bottom-Up (Tabulation)** - Iterative, building from smallest subproblems\n\n**Example - Fibonacci:**\n```javascript\n// Without DP: O(2ⁿ) - Exponential!\n// With DP: O(n) - Linear!\n\nfunction fibDP(n) \x7b\n    const dp = [0, 1];\n    for (let i = 2; i <= n; i++) \x7b\n        dp[i] = dp[i-1] + dp[i-2];\n    \x7d\n    return dp[n];\n\x7d\n```\n\n**Classic DP Problems:**\n• Longest Common Subsequence\n• 0/1 Knapsack\n• Edit Distance\n• Coin Change\n• Matrix Chain Multiplication",
    confidence := (93 : Rat) / 100,
    topic := "Algorithms" }

/-- Knowledge-base entry keyed by "what is" in the source table. -/
def whatIsEntry : KBEntry :=
  { answer := "I'd be happy to explain that concept! Could you be a bit more specific about what you'd like to learn about? \n\nFor example, you could ask about:\n• **Data Structures** - BST, Hash Tables, Graphs, Heaps\n• **Algorithms** - Sorting, Searching, Dynamic Programming\n• **Thermodynamics** - Laws, Entropy, Carnot Cycle\n• **Signal Processing** - Fourier Transform, Convolution\n• **Programming** - Recursion, Big O, OOP concepts\n\nJust let me know what topic interests you! 🎯",
    confidence := (7 : Rat) / 10,
    topic := "General" }

/-- Knowledge-base entry keyed by "how does" in the source table. -/
def howDoesEntry : KBEntry :=
  { answer := "Great question! Understanding *how* things work is key to mastering any subject.\n\nI can explain mechanisms and processes for topics like:\n• **How sorting algorithms work** (Quick Sort, Merge Sort, etc.)\n• **How data structures operate** (BST operations, hashing)\n• **How thermodynamic cycles function** (Carnot, Otto, Diesel)\n• **How signal processing transforms work** (FFT, Convolution)\n\nCould you specify which concept you'd like me to break down step by step? 🔍",
    confidence := (7 : Rat) / 10,
    topic := "General" }

/-- Knowledge-base entry keyed by "explain" in the source table. -/
def explainEntry : KBEntry :=
  { answer := "I love explaining things! Teaching is one of my favorite things to do.\n\nI can break down complex topics into simple, digestible explanations. Popular topics include:\n• Core CS concepts (algorithms, data structures)\n• Physics principles (thermodynamics, mechanics)\n• Math fundamentals (calculus, linear algebra)\n• Signal processing techniques\n\nWhat would you like me to explain? I'll make sure to include examples and analogies to make it crystal clear! ✨",
    confidence := (7 : Rat) / 10,
    topic := "General" }

/-- Knowledge-base entry keyed by "help" in the source table. -/
def helpEntry : KBEntry :=
  { answer := "Of course! I'm here to help you succeed in your studies! 📚\n\n**Here's what I can assist with:**\n\n🎓 **Learning New Concepts**\nAsk me to explain any topic from your courses\n\n📝 **Problem Solving**\nWalk through examples step by step\n\n🧠 **Exam Preparation**\nReview key concepts and common questions\n\n💡 **Clarifying Doubts**\nGet unstuck on confusing topics\n\n**Try asking something like:**\n• \"What is a Binary Search Tree?\"\n• \"Explain the First Law of Thermodynamics\"\n• \"How does Quick Sort work?\"\n\nWhat would you like to learn today?",
    confidence := (85 : Rat) / 100,
    topic := "General" }

/-- The primary knowledge base, as the ordered association list produced by
`Object.entries(knowledgeBase)` (string-keyed insertion order). -/
def knowledgeBase : List (String × KBEntry) := [
  ("binary search tree", bstEntry),
  ("quick sort", quickSortEntry),
  ("merge sort", mergeSortEntry),
  ("linked list", linkedListEntry),
  ("hash table", hashTableEntry),
  ("stack", stackEntry),
  ("queue", queueEntry),
  ("graph", graphEntry),
  ("heap", heapEntry),
  ("first law of thermodynamics", firstLawEntry),
  ("second law of thermodynamics", secondLawEntry),
  ("carnot cycle", carnotEntry),
  ("entropy", entropyEntry),
  ("fourier transform", fourierEntry),
  ("nyquist theorem", nyquistEntry),
  ("convolution", convolutionEntry),
  ("recursion", recursionEntry),
  ("big o notation", bigOEntry),
  ("dynamic programming", dpEntry),
  ("what is", whatIsEntry),
  ("how does", howDoesEntry),
  ("explain", explainEntry),
  ("help", helpEntry)
]

/-- Extended-topic entry keyed by "array". -/
def arrayExt : ExtEntry :=
  { text := "**Arrays** are fundamental data structures that store elements in contiguous memory.\n\n**Key Properties:**\n• Fixed size (in most languages)\n• O(1) random access via index\n• O(n) insertion/deletion\n\n**Operations:**\n• Access: arr[i] - O(1)\n• Search: O(n) linear, O(log n) if sorted\n• Insert/Delete: O(n) due to shifting",
    conf := (9 : Rat) / 10,
    top := "Data Structures" }

/-- Extended-topic entry keyed by "pointer". -/
def pointerExt : ExtEntry :=
  { text := "**Pointers** are variables that store memory addresses.\n\n**Key Concepts:**\n• Declaration: int *ptr;\n• Address-of operator: &variable\n• Dereference: *ptr\n\n**Common Uses:**\n• Dynamic memory allocation\n• Passing by reference\n• Data structures (linked lists, trees)",
    conf := (88 : Rat) / 100,
    top := "Programming" }

/-- Extended-topic entry keyed by "oop". -/
def oopExt : ExtEntry :=
  { text := "**Object-Oriented Programming (OOP)** is a paradigm based on objects.\n\n**Four Pillars:**\n• **Encapsulation** - Bundling data with methods\n• **Inheritance** - Classes inherit from parents\n• **Polymorphism** - Same interface, different implementations\n• **Abstraction** - Hide complexity, show essentials",
    conf := (92 : Rat) / 100,
    top := "Programming" }

/-- Extended-topic entry keyed by "sql". -/
def sqlExt : ExtEntry :=
  { text := "**SQL (Structured Query Language)** manages relational databases.\n\n**Core Commands:**\n• SELECT - Query data\n• INSERT - Add records\n• UPDATE - Modify data\n• DELETE - Remove records\n• JOIN - Combine tables",
    conf := (9 : Rat) / 10,
    top := "Databases" }

/-- Extended-topic entry keyed by "complexity". -/
def complexityExt : ExtEntry :=
  { text := "**Time & Space Complexity** measure algorithm efficiency.\n\n**Time Complexity:** How runtime grows with input\n**Space Complexity:** Memory usage growth\n\n**Common Classes:**\nO(1) < O(log n) < O(n) < O(n log n) < O(n²) < O(2ⁿ)",
    conf := (91 : Rat) / 100,
    top := "Algorithms" }

/-- Extended-topic entry keyed by "bfs". -/
def bfsExt : ExtEntry :=
  { text := "**Breadth-First Search (BFS)** explores graphs level by level.\n\n**Algorithm:**\n1. Start from source, add to queue\n2. Dequeue node, visit neighbors\n3. Add unvisited neighbors to queue\n4. Repeat until queue empty\n\n**Time: O(V+E) | Space: O(V)**\n**Uses:** Shortest path in unweighted graphs",
    conf := (92 : Rat) / 100,
    top := "Algorithms" }

/-- Extended-topic entry keyed by "dfs". -/
def dfsExt : ExtEntry :=
  { text := "**Depth-First Search (DFS)** explores as far as possible before backtracking.\n\n**Algorithm:**\n1. Start from source\n2. Visit node, mark visited\n3. Recursively visit unvisited neighbors\n4. Backtrack when stuck\n\n**Time: O(V+E) | Space: O(V)**\n**Uses:** Path finding, cycle detection, topological sort",
    conf := (92 : Rat) / 100,
    top := "Algorithms" }

/-- Extended-topic entry keyed by "binary search". -/
def binarySearchExt : ExtEntry :=
  { text := "**Binary Search** finds elements in sorted arrays efficiently.\n\n**Algorithm:**\n1. Compare target with middle element\n2. If equal, found!\n3. If target < middle, search left half\n4. If target > middle, search right half\n\n**Time: O(log n)** - Halves search space each step!",
    conf := (94 : Rat) / 100,
    top := "Algorithms" }

/-- The secondary (extended keyword) table, in source iteration order. -/
def extendedTopics : List (String × ExtEntry) := [
  ("array", arrayExt),
  ("pointer", pointerExt),
  ("oop", oopExt),
  ("sql", sqlExt),
  ("complexity", complexityExt),
  ("bfs", bfsExt),
  ("dfs", dfsExt),
  ("binary search", binarySearchExt)
]

/-- Text of the greeting override response. -/
def greetingText : String := "Hey there! 👋 Great to see you!\n\nI'm Study Pilot AI, ready to help you master any topic!\n\n**Popular topics I can explain:**\n• 🌳 Data Structures & Algorithms\n• 🔥 Thermodynamics\n• 📊 Signal Processing\n• 💻 Programming Concepts\n\nWhat would you like to learn? 🚀"

/-- Text of the thanks override response. -/
def thanksText : String := "You're welcome! 😊 Happy to help!\n\nFeel free to ask more questions anytime. Keep crushing those studies! 📚✨"

/-- Text of the identity override response. -/
def identityText : String := "I'm **Study Pilot AI** 🤖 - your personal learning companion!\n\n**What I do:**\n• Explain complex topics simply\n• Help with CS, Physics, Math & more\n• Provide examples and code snippets\n• Make learning engaging!\n\n**Ask me anything** - I'm here 24/7! 🎓"

/-- Fallback suggestion list. -/
def suggestions : List String := ["Binary Search Tree", "Quick Sort", "Thermodynamics", "Fourier Transform", "Dynamic Programming", "Big O Notation"]

/-- The fallback response template, with the randomly chosen suggestion spliced in. -/
def fallbackText (pick : String) : String := "Interesting question! 🤔\n\nI'm knowledgeable about:\n• **Data Structures** - Arrays, Trees, Graphs, Hash Tables\n• **Algorithms** - Sorting, Searching, DP\n• **Thermodynamics** - Laws, Entropy, Cycles\n• **Signal Processing** - FFT, Convolution\n• **Programming** - OOP, Recursion, Complexity\n\n**Try:** \"" ++ pick ++ "\"\n\nOr rephrase and I'll help! 💡"

/-- The per-entry score of the primary matcher: if the normalized query
contains the phrase key, `keyWords.length * 3`; otherwise one point per
constituent word found as a substring of the query. -/
def entryScore (lq key : String) : Nat :=
  let keyWords := wordsOf key
  if jsIncludes lq key then keyWords.length * 3
  else (keyWords.filter fun w => jsIncludes lq w).length

/-- One iteration of the primary-matcher loop: update `(bestMatch, bestScore)`
only on a strictly larger score (`if (score > bestScore)`). -/
def stepBest (lq : String) (acc : Option KBEntry × Nat) (kv : String × KBEntry) :
    Option KBEntry × Nat :=
  let score := entryScore lq kv.1
  if acc.2 < score then (some kv.2, score) else acc

/-- The primary-matcher loop: fold over the table tracking
`(bestMatch, bestScore)`, starting from `(null, 0)`. -/
def selectBest (lq : String) (l : List (String × KBEntry)) : Option KBEntry × Nat :=
  l.foldl (stepBest lq) (none, 0)

/-- The initial values of the locals: `response = null`, `confidence = 0.85`,
`topic = 'General'`. -/
def initialState : RState :=
  { response := none, confidence := (85 : Rat) / 100, topic := "General" }

/-- The `if (bestScore >= 1 && bestMatch)` acceptance of the primary match. -/
def primaryStage (lq : String) (st : RState) : RState :=
  let best := selectBest lq knowledgeBase
  if 1 ≤ best.2 then
    match best.1 with
    | some m => { response := some m.answer, confidence := m.confidence, topic := m.topic }
    | none => st
  else st

/-- The extended-keyword loop: only entered when `response` is still null,
takes the first entry whose keyword occurs in the normalized query. -/
def extendedStage (lq : String) (st : RState) : RState :=
  if st.response.isNone then
    match extendedTopics.find? (fun kv => jsIncludes lq kv.1) with
    | some kv => { response := some kv.2.text, confidence := kv.2.conf, topic := kv.2.top }
    | none => st
  else st

/-- The three sequential override `if`s (greeting, thanks, identity), each
overwriting the current result when its regex matches the normalized query. -/
def overrideStage (lq : String) (st : RState) : RState :=
  let st1 :=
    if greetingTest lq then
      { response := some greetingText, confidence := (98 : Rat) / 100, topic := "General" }
    else st
  let st2 :=
    if thanksTest lq then
      { response := some thanksText, confidence := (98 : Rat) / 100, topic := "General" }
    else st1
  if identityTest lq then
    { response := some identityText, confidence := (98 : Rat) / 100, topic := "General" }
  else st2

/-- The `if (!response)` fallback: random suggestion spliced into the fixed
template, confidence set to 0.65, topic left as it is. -/
def fallbackStage (pick : Fin 6) (st : RState) : RState :=
  if st.response.isNone then
    { response := some (fallbackText (suggestions.getD pick.val "")),
      confidence := (65 : Rat) / 100, topic := st.topic }
  else st

/-- The body of the `setTimeout` callback, as a function of the normalized
query and of the fallback random draw. -/
def respond (lq : String) (pick : Fin 6) : ComposedResponse :=
  let st := fallbackStage pick (overrideStage lq (extendedStage lq (primaryStage lq initialState)))
  { answer := st.response.getD "", confidence := st.confidence, topic := st.topic, isLocal := true }

/-- `generateAIResponse(query, conversationHistory)`: normalizes the query and
runs the matching pipeline; the history argument is accepted but never read,
and the resolved value is `{ answer, confidence, topic, isLocal: true }`. -/
def generateAIResponse (query : String) (conversationHistory : List ConversationMessage)
    (pick : Fin 6) : ComposedResponse :=
  respond (normalizeQuery query) pick

/-- Shorthand for a concrete fallback draw used in concrete evaluations. -/
def pick0 : Fin 6 := ⟨0, by decide⟩


theorem splitChar_ne_nil (sep : Char) (l : List Char) : splitChar sep l ≠ [] := by
  cases l with
  | nil => simp [splitChar]
  | cons c cs =>
    simp only [splitChar]
    split
    · simp
    · split <;> simp

theorem wordsOf_ne_nil (key : String) : wordsOf key ≠ [] := by
  unfold wordsOf
  intro h
  exact splitChar_ne_nil ' ' key.data (List.map_eq_nil_iff.mp h)

theorem one_le_length_wordsOf (key : String) : 1 ≤ (wordsOf key).length := by
  cases hw : wordsOf key with
  | nil => exact absurd hw (wordsOf_ne_nil key)
  | cons a as => simp

theorem entryScore_of_includes {lq key : String} (h : jsIncludes lq key = true) :
    entryScore lq key = (wordsOf key).length * 3 := by
  simp [entryScore, h]

theorem entryScore_of_not_includes {lq key : String} (h : jsIncludes lq key = false) :
    entryScore lq key = ((wordsOf key).filter fun w => jsIncludes lq w).length := by
  simp [entryScore, h]

theorem one_le_entryScore_of_includes {lq key : String} (h : jsIncludes lq key = true) :
    1 ≤ entryScore lq key := by
  rw [entryScore_of_includes h]
  have := one_le_length_wordsOf key
  omega

theorem foldl_stepBest_fixed (lq : String) :
    ∀ (l : List (String × KBEntry)) (acc : Option KBEntry × Nat),
      (∀ kv ∈ l, entryScore lq kv.1 ≤ acc.2) → l.foldl (stepBest lq) acc = acc := by
  intro l
  induction l with
  | nil => intro acc _; rfl
  | cons x xs ih =>
    intro acc h
    have hx : entryScore lq x.1 ≤ acc.2 := h x (by simp)
    have hstep : stepBest lq acc x = acc := by
      simp only [stepBest]
      rw [if_neg (by omega)]
    rw [List.foldl_cons, hstep]
    exact ih acc fun kv hkv => h kv (by simp [hkv])

theorem foldl_stepBest_win (lq : String) (kv : String × KBEntry) :
    ∀ (l1 l2 : List (String × KBEntry)) (acc : Option KBEntry × Nat),
      acc.2 < entryScore lq kv.1 →
      (∀ x ∈ l1, entryScore lq x.1 < entryScore lq kv.1) →
      (∀ x ∈ l2, entryScore lq x.1 ≤ entryScore lq kv.1) →
      (l1 ++ kv :: l2).foldl (stepBest lq) acc = (some kv.2, entryScore lq kv.1) := by
  intro l1
  induction l1 with
  | nil =>
    intro l2 acc hacc _ hl2
    rw [List.nil_append, List.foldl_cons]
    have hstep : stepBest lq acc kv = (some kv.2, entryScore lq kv.1) := by
      simp only [stepBest]
      rw [if_pos hacc]
    rw [hstep]
    exact foldl_stepBest_fixed lq l2 _ hl2
  | cons x xs ih =>
    intro l2 acc hacc hl1 hl2
    rw [List.cons_append, List.foldl_cons]
    by_cases hc : acc.2 < entryScore lq x.1
    · have hstep : stepBest lq acc x = (some x.2, entryScore lq x.1) := by
        simp only [stepBest]
        rw [if_pos hc]
      rw [hstep]
      exact ih l2 _ (hl1 x (by simp)) (fun y hy => hl1 y (by simp [hy])) hl2
    · have hstep : stepBest lq acc x = acc := by
        simp only [stepBest]
        rw [if_neg hc]
      rw [hstep]
      exact ih l2 acc hacc (fun y hy => hl1 y (by simp [hy])) hl2

theorem foldl_stepBest_isSome (lq : String) :
    ∀ (l : List (String × KBEntry)) (acc : Option KBEntry × Nat),
      acc.1.isSome = true → (l.foldl (stepBest lq) acc).1.isSome = true := by
  intro l
  induction l with
  | nil => intro acc h; exact h
  | cons x xs ih =>
    intro acc h
    rw [List.foldl_cons]
    apply ih
    by_cases hc : acc.2 < entryScore lq x.1
    · simp only [stepBest]
      rw [if_pos hc]
      rfl
    · simp only [stepBest]
      rw [if_neg hc]
      exact h

theorem foldl_stepBest_eq_or_isSome (lq : String) :
    ∀ (l : List (String × KBEntry)) (acc : Option KBEntry × Nat),
      l.foldl (stepBest lq) acc = acc ∨ (l.foldl (stepBest lq) acc).1.isSome = true := by
  intro l
  induction l with
  | nil => intro acc; exact Or.inl rfl
  | cons x xs ih =>
    intro acc
    rw [List.foldl_cons]
    by_cases hc : acc.2 < entryScore lq x.1
    · right
      apply foldl_stepBest_isSome
      simp only [stepBest]
      rw [if_pos hc]
      rfl
    · have hstep : stepBest lq acc x = acc := by
        simp only [stepBest]
        rw [if_neg hc]
      rw [hstep]
      exact ih acc

theorem selectBest_isSome_of_pos {lq : String} {l : List (String × KBEntry)}
    (h : 1 ≤ (selectBest lq l).2) : (selectBest lq l).1.isSome = true := by
  rcases foldl_stepBest_eq_or_isSome lq l (none, 0) with he | hs
  · rw [selectBest] at h
    rw [he] at h
    omega
  · exact hs

theorem find?_of_first {α : Type} (p : α → Bool) (kv : α) :
    ∀ (l1 l2 : List α), (∀ x ∈ l1, p x = false) → p kv = true →
      (l1 ++ kv :: l2).find? p = some kv := by
  intro l1
  induction l1 with
  | nil =>
    intro l2 _ hkv
    rw [List.nil_append]
    exact List.find?_cons_of_pos _ hkv
  | cons x xs ih =>
    intro l2 h hkv
    rw [List.cons_append, List.find?_cons_of_neg _ (by simp [h x (by simp)])]
    exact ih l2 (fun y hy => h y (by simp [hy])) hkv

theorem find?_of_none {α : Type} (p : α → Bool) :
    ∀ l : List α, (∀ x ∈ l, p x = false) → l.find? p = none := by
  intro l
  induction l with
  | nil => intro _; rfl
  | cons x xs ih =>
    intro h
    rw [List.find?_cons_of_neg _ (by simp [h x (by simp)])]
    exact ih fun y hy => h y (by simp [hy])

theorem primaryStage_of_win {lq : String} {l1 l2 : List (String × KBEntry)}
    {k : String} {e : KBEntry}
    (hkb : knowledgeBase = l1 ++ (k, e) :: l2)
    (hl1 : ∀ x ∈ l1, entryScore lq x.1 < entryScore lq k)
    (hl2 : ∀ x ∈ l2, entryScore lq x.1 ≤ entryScore lq k)
    (hpos : 1 ≤ entryScore lq k) (st : RState) :
    selectBest lq knowledgeBase = (some e, entryScore lq k) ∧
      primaryStage lq st =
        { response := some e.answer, confidence := e.confidence, topic := e.topic } := by
  have hsel : selectBest lq knowledgeBase = (some e, entryScore lq k) := by
    rw [hkb, selectBest]
    exact foldl_stepBest_win lq (k, e) l1 l2 (none, 0) (by simpa using hpos) hl1 hl2
  refine ⟨hsel, ?_⟩
  simp only [primaryStage, hsel]
  rw [if_pos hpos]

theorem primaryStage_of_zero {lq : String}
    (h : ∀ kv ∈ knowledgeBase, entryScore lq kv.1 = 0) (st : RState) :
    selectBest lq knowledgeBase = (none, 0) ∧ primaryStage lq st = st := by
  have hsel : selectBest lq knowledgeBase = (none, 0) := by
    rw [selectBest]
    exact foldl_stepBest_fixed lq knowledgeBase (none, 0) fun kv hkv => by simp [h kv hkv]
  refine ⟨hsel, ?_⟩
  simp [primaryStage, hsel]

theorem primaryStage_cases (lq : String) (st : RState) :
    primaryStage lq st = st ∨ (primaryStage lq st).response.isSome = true := by
  simp only [primaryStage]
  by_cases h : 1 ≤ (selectBest lq knowledgeBase).2
  · cases hm : (selectBest lq knowledgeBase).1 with
    | none => left; rw [if_pos h]
    | some m => right; rw [if_pos h]; rfl
  · left; rw [if_neg h]

theorem extendedStage_of_some {lq : String} {st : RState}
    (h : st.response.isSome = true) : extendedStage lq st = st := by
  simp only [extendedStage]
  rw [if_neg (by simp [Option.isNone_iff_eq_none, ← Option.isSome_iff_ne_none, h])]

theorem extendedStage_of_found {lq : String} {st : RState} (hst : st.response = none)
    {l1 l2 : List (String × ExtEntry)} {kv : String × ExtEntry}
    (hext : extendedTopics = l1 ++ kv :: l2)
    (hl1 : ∀ x ∈ l1, jsIncludes lq x.1 = false) (hkv : jsIncludes lq kv.1 = true) :
    extendedStage lq st =
      { response := some kv.2.text, confidence := kv.2.conf, topic := kv.2.top } := by
  have hfind : extendedTopics.find? (fun x => jsIncludes lq x.1) = some kv := by
    rw [hext]
    exact find?_of_first _ kv l1 l2 hl1 hkv
  simp [extendedStage, hst, hfind]

theorem extendedStage_of_notfound {lq : String} {st : RState} (hst : st.response = none)
    (h : ∀ x ∈ extendedTopics, jsIncludes lq x.1 = false) : extendedStage lq st = st := by
  have hfind : extendedTopics.find? (fun x => jsIncludes lq x.1) = none :=
    find?_of_none _ extendedTopics h
  simp [extendedStage, hst, hfind]

theorem extendedStage_cases (lq : String) (st : RState) :
    extendedStage lq st = st ∨ (extendedStage lq st).response.isSome = true := by
  simp only [extendedStage]
  by_cases h : st.response.isNone = true
  · cases hf : extendedTopics.find? (fun x => jsIncludes lq x.1) with
    | none => left; rw [if_pos h]
    | some kv => right; rw [if_pos h]; rfl
  · left; rw [if_neg h]

theorem overrideStage_of_identity {lq : String} (st : RState) (h : identityTest lq = true) :
    overrideStage lq st =
      { response := some identityText, confidence := (98 : Rat) / 100, topic := "General" } := by
  simp [overrideStage, h]

theorem overrideStage_of_thanks {lq : String} (st : RState)
    (hi : identityTest lq = false) (ht : thanksTest lq = true) :
    overrideStage lq st =
      { response := some thanksText, confidence := (98 : Rat) / 100, topic := "General" } := by
  simp [overrideStage, hi, ht]

theorem overrideStage_of_greeting {lq : String} (st : RState)
    (hi : identityTest lq = false) (ht : thanksTest lq = false) (hg : greetingTest lq = true) :
    overrideStage lq st =
      { response := some greetingText, confidence := (98 : Rat) / 100, topic := "General" } := by
  simp [overrideStage, hi, ht, hg]

theorem overrideStage_of_none {lq : String} (st : RState)
    (hi : identityTest lq = false) (ht : thanksTest lq = false) (hg : greetingTest lq = false) :
    overrideStage lq st = st := by
  simp [overrideStage, hi, ht, hg]

theorem overrideStage_cases (lq : String) (st : RState) :
    overrideStage lq st = st ∨ (overrideStage lq st).response.isSome = true := by
  by_cases hi : identityTest lq = true
  · right; rw [overrideStage_of_identity st hi]; rfl
  · by_cases ht : thanksTest lq = true
    · right
      rw [overrideStage_of_thanks st (Bool.not_eq_true _ ▸ hi) ht]
      rfl
    · by_cases hg : greetingTest lq = true
      · right
        rw [overrideStage_of_greeting st (Bool.not_eq_true _ ▸ hi) (Bool.not_eq_true _ ▸ ht) hg]
        rfl
      · left
        exact overrideStage_of_none st (Bool.not_eq_true _ ▸ hi) (Bool.not_eq_true _ ▸ ht)
          (Bool.not_eq_true _ ▸ hg)

theorem fallbackStage_of_some {pick : Fin 6} {st : RState}
    (h : st.response.isSome = true) : fallbackStage pick st = st := by
  simp only [fallbackStage]
  rw [if_neg (by simp [Option.isNone_iff_eq_none, ← Option.isSome_iff_ne_none, h])]

theorem fallbackStage_of_none {pick : Fin 6} {st : RState} (h : st.response = none) :
    fallbackStage pick st =
      { response := some (fallbackText (suggestions.getD pick.val "")),
        confidence := (65 : Rat) / 100, topic := st.topic } := by
  simp [fallbackStage, h]

theorem pipeline_none_eq_initial {lq : String}
    (h : (overrideStage lq (extendedStage lq (primaryStage lq initialState))).response = none) :
    overrideStage lq (extendedStage lq (primaryStage lq initialState)) = initialState := by
  rcases overrideStage_cases lq (extendedStage lq (primaryStage lq initialState)) with ho | ho
  · rw [ho] at h ⊢
    rcases extendedStage_cases lq (primaryStage lq initialState) with he | he
    · rw [he] at h ⊢
      rcases primaryStage_cases lq initialState with hp | hp
      · exact hp
      · rw [h] at hp
        exact absurd hp (by simp)
    · rw [h] at he
      exact absurd he (by simp)
  · rw [h] at ho
    exact absurd ho (by simp)

/-- C10: whenever the fallback generator produces the response (the state
reaching the `if (!response)` fallback still has `response = null`, i.e. no
primary match, no secondary match, no override), the returned topic is exactly
"General" and the confidence is the fallback's 0.65: the topic defaults to
"General" and the fallback branch assigns only the text and the confidence. -/
theorem fallback_topic_is_general :
    ∀ (q : String) (hist : List ConversationMessage) (pick : Fin 6),
      (overrideStage (normalizeQuery q)
        (extendedStage (normalizeQuery q)
          (primaryStage (normalizeQuery q) initialState))).response = none →
      (generateAIResponse q hist pick).topic = "General" ∧
        (generateAIResponse q hist pick).confidence = (65 : Rat) / 100 ∧
        (generateAIResponse q hist pick).answer =
          fallbackText (suggestions.getD pick.val "") := by
  intro q hist pick h
  have hpipe := pipeline_none_eq_initial h
  have hfb := @fallbackStage_of_none pick initialState rfl
  simp [generateAIResponse, respond, hpipe, hfb]
  rfl

/-- Closed witness for `fallback_topic_is_general`, at the query "zzz" (which
matches no primary word, no extended keyword and no override pattern). -/
theorem fallback_topic_is_general_witness :
    (generateAIResponse "zzz" [] pick0).topic = "General" ∧
      (generateAIResponse "zzz" [] pick0).confidence = (65 : Rat) / 100 ∧
      (generateAIResponse "zzz" [] pick0).answer =
        fallbackText (suggestions.getD pick0.val "") :=
  fallback_topic_is_general "zzz" [] pick0 (by decide)

/-- C5: the engine is a total function — every query (the empty string
included) yields a `ComposedResponse` — and when no primary entry scores at
least 1, no extended keyword occurs in the normalized query, and no override
pattern matches, the result has confidence exactly 0.65 and its text is the
fixed fallback template (with the randomly picked suggestion spliced in). -/
theorem engine_total_fallback :
    ∀ (q : String) (hist : List ConversationMessage) (pick : Fin 6),
      (∀ kv ∈ knowledgeBase, entryScore (normalizeQuery q) kv.1 = 0) →
      (∀ kv ∈ extendedTopics, jsIncludes (normalizeQuery q) kv.1 = false) →
      greetingTest (normalizeQuery q) = false →
      thanksTest (normalizeQuery q) = false →
      identityTest (normalizeQuery q) = false →
      generateAIResponse q hist pick =
        { answer := fallbackText (suggestions.getD pick.val ""),
          confidence := (65 : Rat) / 100, topic := "General", isLocal := true } := by
  intro q hist pick hkb hext hg ht hi
  have hp := (primaryStage_of_zero hkb initialState).2
  have he : extendedStage (normalizeQuery q) initialState = initialState :=
    extendedStage_of_notfound rfl hext
  have ho := @overrideStage_of_none (normalizeQuery q) initialState hi ht hg
  have hfb := @fallbackStage_of_none pick initialState rfl
  simp [generateAIResponse, respond, hp, he, ho, hfb]
  rfl

/-- Closed witness for `engine_total_fallback`, at the empty query: the empty
string is accepted and routed to the fallback at confidence 0.65. -/
theorem engine_total_fallback_witness :
    generateAIResponse "" [] pick0 =
      { answer := fallbackText (suggestions.getD pick0.val ""),
        confidence := (65 : Rat) / 100, topic := "General", isLocal := true } :=
  engine_total_fallback "" [] pick0 (by decide) (by decide) (by decide) (by decide) (by decide)

/-- C7: the result does not depend on the conversation history argument — for
the same query and the same random draw, any two histories (the empty one
included) give identical text, confidence and topic. The history parameter is
accepted by `generateAIResponse` but never read. -/
theorem history_independent :
    ∀ (q : String) (h1 h2 : List ConversationMessage) (pick : Fin 6),
      generateAIResponse q h1 pick = generateAIResponse q h2 pick :=
  fun _ _ _ _ => rfl

/-- C6 counterexample: on the raw query " hi" (leading space) none of the
three override patterns matches — the greeting regex is anchored at the start
of the string, so applied to the raw, untrimmed query (already lowercase, so
case-insensitivity changes nothing) it fails — yet the engine does fire the
greeting override, returning its text at confidence 0.98: the overrides are
evaluated against the trimmed lowercased query, not the raw query, refuting
the claim as stated. -/
theorem overrides_on_raw_query_cex :
    greetingTest " hi" = false ∧ thanksTest " hi" = false ∧ identityTest " hi" = false ∧
      greetingTest (normalizeQuery " hi") = true ∧
      (generateAIResponse " hi" [] pick0).answer = greetingText ∧
      (generateAIResponse " hi" [] pick0).confidence = (98 : Rat) / 100 := by
  refine ⟨by decide, by decide, by decide, by decide, by decide, by rfl⟩

/-- C6 as amended: each override pattern (greeting, thanks, identity) is
evaluated against the trimmed, lowercased query — the same normalized form
used by the primary and secondary matchers — so the whole engine, overrides
included, depends only on the normalized query; matching is case-insensitive
(and leading/trailing-whitespace-insensitive) as a consequence. -/
theorem overrides_on_normalized_query :
    ∀ (q1 q2 : String) (hist : List ConversationMessage) (pick : Fin 6),
      normalizeQuery q1 = normalizeQuery q2 →
      generateAIResponse q1 hist pick = generateAIResponse q2 hist pick := by
  intro q1 q2 hist pick h
  simp [generateAIResponse, h]

/-- Closed witness for `overrides_on_normalized_query`: " Hi" and "hi"
normalize alike and get the same response. -/
theorem overrides_on_normalized_query_witness :
    generateAIResponse " Hi" [] pick0 = generateAIResponse "hi" [] pick0 :=
  overrides_on_normalized_query " Hi" "hi" [] pick0 (by decide)

/-- C2: the overrides run after primary/secondary matching in the fixed order
greeting, thanks, identity; each triggered override unconditionally replaces
any earlier result with a response of confidence exactly 0.98 and topic
exactly "General", and when several patterns match, the last applicable one in
that order wins. In particular "thanks so much!" gets topic "General" and
confidence 0.98 (overriding the knowledge-base candidate that scores on it). -/
theorem override_precedence :
    (∀ (q : String) (hist : List ConversationMessage) (pick : Fin 6),
      (identityTest (normalizeQuery q) = true →
        generateAIResponse q hist pick =
          { answer := identityText, confidence := (98 : Rat) / 100,
            topic := "General", isLocal := true }) ∧
      (identityTest (normalizeQuery q) = false → thanksTest (normalizeQuery q) = true →
        generateAIResponse q hist pick =
          { answer := thanksText, confidence := (98 : Rat) / 100,
            topic := "General", isLocal := true }) ∧
      (identityTest (normalizeQuery q) = false → thanksTest (normalizeQuery q) = false →
        greetingTest (normalizeQuery q) = true →
        generateAIResponse q hist pick =
          { answer := greetingText, confidence := (98 : Rat) / 100,
            topic := "General", isLocal := true })) ∧
    (∀ (hist : List ConversationMessage) (pick : Fin 6),
      (generateAIResponse "thanks so much!" hist pick).topic = "General" ∧
      (generateAIResponse "thanks so much!" hist pick).confidence = (98 : Rat) / 100) := by
  have hmain : ∀ (q : String) (hist : List ConversationMessage) (pick : Fin 6),
      (identityTest (normalizeQuery q) = true →
        generateAIResponse q hist pick =
          { answer := identityText, confidence := (98 : Rat) / 100,
            topic := "General", isLocal := true }) ∧
      (identityTest (normalizeQuery q) = false → thanksTest (normalizeQuery q) = true →
        generateAIResponse q hist pick =
          { answer := thanksText, confidence := (98 : Rat) / 100,
            topic := "General", isLocal := true }) ∧
      (identityTest (normalizeQuery q) = false → thanksTest (normalizeQuery q) = false →
        greetingTest (normalizeQuery q) = true →
        generateAIResponse q hist pick =
          { answer := greetingText, confidence := (98 : Rat) / 100,
            topic := "General", isLocal := true }) := by
    intro q hist pick
    refine ⟨fun hi => ?_, fun hi ht => ?_, fun hi ht hg => ?_⟩
    · have ho := overrideStage_of_identity
        (extendedStage (normalizeQuery q) (primaryStage (normalizeQuery q) initialState)) hi
      have hfb := @fallbackStage_of_some pick
        { response := some identityText, confidence := (98 : Rat) / 100,
          topic := "General" } rfl
      simp [generateAIResponse, respond, ho, hfb]
    · have ho := overrideStage_of_thanks
        (extendedStage (normalizeQuery q) (primaryStage (normalizeQuery q) initialState)) hi ht
      have hfb := @fallbackStage_of_some pick
        { response := some thanksText, confidence := (98 : Rat) / 100,
          topic := "General" } rfl
      simp [generateAIResponse, respond, ho, hfb]
    · have ho := overrideStage_of_greeting
        (extendedStage (normalizeQuery q) (primaryStage (normalizeQuery q) initialState)) hi ht hg
      have hfb := @fallbackStage_of_some pick
        { response := some greetingText, confidence := (98 : Rat) / 100,
          topic := "General" } rfl
      simp [generateAIResponse, respond, ho, hfb]
  refine ⟨hmain, fun hist pick => ?_⟩
  have h := (hmain "thanks so much!" hist pick).2.1 (by decide) (by decide)
  rw [h]
  exact ⟨rfl, rfl⟩

/-- Closed witness for `override_precedence`: the identity path on
"who are you", the thanks path on "thanks so much!", and the greeting path on
"hello world". -/
theorem override_precedence_witness :
    generateAIResponse "who are you" [] pick0 =
      { answer := identityText, confidence := (98 : Rat) / 100,
        topic := "General", isLocal := true } ∧
    generateAIResponse "thanks so much!" [] pick0 =
      { answer := thanksText, confidence := (98 : Rat) / 100,
        topic := "General", isLocal := true } ∧
    generateAIResponse "hello world" [] pick0 =
      { answer := greetingText, confidence := (98 : Rat) / 100,
        topic := "General", isLocal := true } :=
  ⟨(override_precedence.1 "who are you" [] pick0).1 (by decide),
   (override_precedence.1 "thanks so much!" [] pick0).2.1 (by decide) (by decide),
   (override_precedence.1 "hello world" [] pick0).2.2 (by decide) (by decide) (by decide)⟩

/-- C1: the primary matcher scores each knowledge-base entry against the
normalized query — (number of words in the key) × 3 when the query contains
the whole phrase key, otherwise 1 point per constituent word found as a
substring — selects the entry with the strictly highest score (ties keep the
first-encountered entry in table order: an entry wins exactly when every
earlier entry scores strictly lower and every later entry scores no higher),
and reports a match, with that entry's answer, confidence and topic, only if
the best score is at least 1 (when every entry scores 0 the stage reports
nothing and leaves the state unchanged). -/
theorem primary_matcher_correct :
    (∀ lq key : String,
      (jsIncludes lq key = true → entryScore lq key = (wordsOf key).length * 3) ∧
      (jsIncludes lq key = false →
        entryScore lq key = ((wordsOf key).filter fun w => jsIncludes lq w).length)) ∧
    (∀ (q : String) (l1 l2 : List (String × KBEntry)) (k : String) (e : KBEntry) (st : RState),
      knowledgeBase = l1 ++ (k, e) :: l2 →
      (∀ x ∈ l1, entryScore (normalizeQuery q) x.1 < entryScore (normalizeQuery q) k) →
      (∀ x ∈ l2, entryScore (normalizeQuery q) x.1 ≤ entryScore (normalizeQuery q) k) →
      1 ≤ entryScore (normalizeQuery q) k →
      selectBest (normalizeQuery q) knowledgeBase =
        (some e, entryScore (normalizeQuery q) k) ∧
      primaryStage (normalizeQuery q) st =
        { response := some e.answer, confidence := e.confidence, topic := e.topic }) ∧
    (∀ (q : String) (st : RState),
      (∀ kv ∈ knowledgeBase, entryScore (normalizeQuery q) kv.1 = 0) →
      selectBest (normalizeQuery q) knowledgeBase = (none, 0) ∧
      primaryStage (normalizeQuery q) st = st) := by
  refine ⟨fun lq key => ⟨fun h => entryScore_of_includes h,
      fun h => entryScore_of_not_includes h⟩,
    fun q l1 l2 k e st hkb hl1 hl2 hpos => primaryStage_of_win hkb hl1 hl2 hpos st,
    fun q st h => primaryStage_of_zero h st⟩

/-- Closed witness for `primary_matcher_correct`: on "What is a Hash Table?"
the entry keyed "hash table" (score 6) beats every earlier entry strictly and
every later entry weakly — the later entry "what is" also scores 6 and loses
the tie to the earlier "hash table" — and on "zzz" every entry scores 0 and
the stage reports no match. -/
theorem primary_matcher_correct_witness :
    (entryScore (normalizeQuery "What is a Hash Table?") "hash table" =
      (wordsOf "hash table").length * 3) ∧
    (selectBest (normalizeQuery "What is a Hash Table?") knowledgeBase =
      (some hashTableEntry, entryScore (normalizeQuery "What is a Hash Table?") "hash table") ∧
    primaryStage (normalizeQuery "What is a Hash Table?") initialState =
      { response := some hashTableEntry.answer, confidence := hashTableEntry.confidence,
        topic := hashTableEntry.topic }) ∧
    (selectBest (normalizeQuery "zzz") knowledgeBase = (none, 0) ∧
      primaryStage (normalizeQuery "zzz") initialState = initialState) :=
  ⟨(primary_matcher_correct.1 (normalizeQuery "What is a Hash Table?") "hash table").1
      (by decide),
   primary_matcher_correct.2.1 "What is a Hash Table?" (knowledgeBase.take 4)
      (knowledgeBase.drop 5) "hash table" hashTableEntry initialState (by rfl)
      (by decide) (by decide) (by decide),
   primary_matcher_correct.2.2 "zzz" initialState (by decide)⟩

/-- C3: the extended-keyword matcher is consulted only when no primary entry
scores at least 1 — whenever the primary best score is ≥ 1 the secondary stage
leaves the state untouched — and on a state with no response yet it returns
the first entry, in the table's fixed iteration order, whose keyword occurs as
a substring of the normalized query (the first match encountered, not the
best-scoring one), or leaves the state unchanged when no keyword occurs. -/
theorem secondary_matcher_first_match :
    (∀ (lq : String) (st : RState),
      1 ≤ (selectBest lq knowledgeBase).2 →
      extendedStage lq (primaryStage lq st) = primaryStage lq st) ∧
    (∀ (lq : String) (st : RState), st.response = none →
      (∀ (l1 l2 : List (String × ExtEntry)) (kv : String × ExtEntry),
        extendedTopics = l1 ++ kv :: l2 →
        (∀ x ∈ l1, jsIncludes lq x.1 = false) →
        jsIncludes lq kv.1 = true →
        extendedStage lq st =
          { response := some kv.2.text, confidence := kv.2.conf, topic := kv.2.top }) ∧
      ((∀ x ∈ extendedTopics, jsIncludes lq x.1 = false) → extendedStage lq st = st)) := by
  constructor
  · intro lq st h
    obtain ⟨m, hm⟩ := Option.isSome_iff_exists.mp (selectBest_isSome_of_pos h)
    apply extendedStage_of_some
    simp only [primaryStage, hm]
    rw [if_pos h]
    rfl
  · intro lq st hst
    exact ⟨fun l1 l2 kv hext hl1 hkv => extendedStage_of_found hst hext hl1 hkv,
      fun h => extendedStage_of_notfound hst h⟩

/-- Closed witness for `secondary_matcher_first_match`: "stack" gives the
primary matcher a positive best score, so the secondary stage is skipped; on
the query "sql dfs" (no primary word matches) the secondary stage returns the
entry for "sql" — the first of the two matching keywords in table order, even
though "dfs" also occurs. -/
theorem secondary_matcher_first_match_witness :
    extendedStage (normalizeQuery "stack") (primaryStage (normalizeQuery "stack") initialState) =
      primaryStage (normalizeQuery "stack") initialState ∧
    extendedStage (normalizeQuery "sql dfs") initialState =
      { response := some sqlExt.text, confidence := sqlExt.conf, topic := sqlExt.top } :=
  ⟨(secondary_matcher_first_match.1 (normalizeQuery "stack") initialState (by decide)),
   ((secondary_matcher_first_match.2 (normalizeQuery "sql dfs") initialState rfl).1
      (extendedTopics.take 3) (extendedTopics.drop 4) ("sql", sqlExt) (by rfl)
      (by decide) (by decide))⟩

/-- C4 counterexample: the query "what is a stack" contains the primary phrase
key "stack" as a contiguous substring and no override phrase, but the returned
topic is "General" (confidence 0.7) from the entry keyed "what is" (score 6),
not the stack entry's "Data Structures" (confidence 0.95): containing a key
does not guarantee that entry is returned, because another entry can outscore
it. -/
theorem contained_key_wins_cex :
    jsIncludes (normalizeQuery "what is a stack") "stack" = true ∧
    ("stack", stackEntry) ∈ knowledgeBase ∧
    stackEntry.topic = "Data Structures" ∧
    stackEntry.confidence = (95 : Rat) / 100 ∧
    greetingTest (normalizeQuery "what is a stack") = false ∧
    thanksTest (normalizeQuery "what is a stack") = false ∧
    identityTest (normalizeQuery "what is a stack") = false ∧
    (generateAIResponse "what is a stack" [] pick0).topic = "General" ∧
    (generateAIResponse "what is a stack" [] pick0).confidence = (7 : Rat) / 10 := by
  refine ⟨by decide, by simp [knowledgeBase], by rfl, by rfl, by decide, by decide, by decide,
    by decide, by rfl⟩

/-- C4 as amended: for all queries containing an exact primary phrase key as a
contiguous substring, with no override phrase present, the returned topic and
confidence equal that entry's — provided that entry wins the primary scoring,
i.e. every earlier entry scores strictly lower and every later entry scores no
higher than it. -/
theorem contained_key_wins :
    ∀ (q : String) (hist : List ConversationMessage) (pick : Fin 6)
      (l1 l2 : List (String × KBEntry)) (k : String) (e : KBEntry),
      knowledgeBase = l1 ++ (k, e) :: l2 →
      jsIncludes (normalizeQuery q) k = true →
      (∀ x ∈ l1, entryScore (normalizeQuery q) x.1 < entryScore (normalizeQuery q) k) →
      (∀ x ∈ l2, entryScore (normalizeQuery q) x.1 ≤ entryScore (normalizeQuery q) k) →
      greetingTest (normalizeQuery q) = false →
      thanksTest (normalizeQuery q) = false →
      identityTest (normalizeQuery q) = false →
      (generateAIResponse q hist pick).topic = e.topic ∧
      (generateAIResponse q hist pick).confidence = e.confidence := by
  intro q hist pick l1 l2 k e hkb hinc hl1 hl2 hg ht hi
  have hpos : 1 ≤ entryScore (normalizeQuery q) k := one_le_entryScore_of_includes hinc
  have hp := (primaryStage_of_win hkb hl1 hl2 hpos initialState).2
  have hee : extendedStage (normalizeQuery q)
      { response := some e.answer, confidence := e.confidence, topic := e.topic } =
      { response := some e.answer, confidence := e.confidence, topic := e.topic } :=
    extendedStage_of_some rfl
  have ho := @overrideStage_of_none (normalizeQuery q)
    { response := some e.answer, confidence := e.confidence, topic := e.topic } hi ht hg
  have hfb := @fallbackStage_of_some pick
    { response := some e.answer, confidence := e.confidence, topic := e.topic } rfl
  simp [generateAIResponse, respond, hp, hee, ho, hfb]

/-- Closed witness for `contained_key_wins`: "binary search tree" is contained
in the query "binary search tree", its entry (the first in the table) wins the
scoring outright, no override phrase is present, and the result carries that
entry's topic "Data Structures" and confidence 0.95. -/
theorem contained_key_wins_witness :
    (generateAIResponse "binary search tree" [] pick0).topic = bstEntry.topic ∧
    (generateAIResponse "binary search tree" [] pick0).confidence = bstEntry.confidence :=
  contained_key_wins "binary search tree" [] pick0 [] (knowledgeBase.drop 1)
    "binary search tree" bstEntry (by rfl) (by decide) (by decide) (by decide)
    (by decide) (by decide) (by decide)

/-- C8 counterexample: the secondary (extended keyword) table contains the key
"binary search", which consists of two words — so not every key of that table
is a single keyword. -/
theorem extended_keys_single_word_cex :
    (extendedTopics.map Prod.fst).contains "binary search" = true ∧
    (wordsOf "binary search").length = 2 := by
  exact ⟨by decide, by decide⟩

/-- C8 as amended: every key of the secondary (extended keyword) table is a
single word except the one two-word key "binary search". -/
theorem extended_keys_single_word :
    ((extendedTopics.map Prod.fst).all
      fun k => k == "binary search" || (wordsOf k).length == 1) = true := by
  decide

/-- C9: the greeting override requires a word boundary after the matched
greeting token — a token match followed by a further word character never
fires (so "highlights of merge sort" and "supper recipes", whose first words
merely begin with "hi" and "sup", do not trigger it, and those queries keep
their knowledge-base/fallback results), while "hi there" does trigger it. -/
theorem greeting_word_boundary :
    (∀ (t : String) (s : List Char) (c : Char) (rest : List Char),
      s.drop t.data.length = c :: rest → isWordChar c = true → tokenAtStart t s = false) ∧
    greetingTest (normalizeQuery "highlights of merge sort") = false ∧
    greetingTest (normalizeQuery "supper recipes") = false ∧
    greetingTest (normalizeQuery "hi there") = true ∧
    (generateAIResponse "hi there" [] pick0).confidence = (98 : Rat) / 100 ∧
    (generateAIResponse "hi there" [] pick0).topic = "General" ∧
    (generateAIResponse "highlights of merge sort" [] pick0).topic = "Algorithms" ∧
    (generateAIResponse "highlights of merge sort" [] pick0).confidence = (93 : Rat) / 100 := by
  refine ⟨?_, by decide, by decide, by decide, by rfl, by decide, by decide, by rfl⟩
  intro t s c rest hdrop hword
  simp only [tokenAtStart, hdrop, boundaryAfter, hword]
  simp

/-- Closed witness for `greeting_word_boundary`: the token "hi" at the start
of "highlights" is followed by the word character 'g', so the anchored
token-with-boundary match fails. -/
theorem greeting_word_boundary_witness :
    tokenAtStart "hi" "highlights".data = false :=
  greeting_word_boundary.1 "hi" "highlights".data 'g' "hlights".data (by decide) (by decide)
